import Mathlib

/-!
Verification of the person-service-repo pipeline: a shallow embedding of the
CRUD lambda (lambdas/email/main.go, v2 handler), the DynamoDB-stream relay
lambda (unnamed/part_000), the consumer lambdas (lambdas/email, lambdas/logging)
and the EventBridge routing rules of lib/person-service-repo-stack.ts, together
with theorems checking the specification's claims against this embedding.
-/

/-- Person record fields, from the Go struct `Person` in lambdas/email/main.go. -/
structure Person where
  firstName : String
  lastName : String
  address : String
  phoneNumber : String
deriving DecidableEq, Repr

/-- The DynamoDB table keyed by personId: an association list of items.
Each item holds the partition key and the four string attributes written
by the handlers. -/
abbrev Store : Type := List (String × Person)

/-- DynamoDB PutItem: replaces the item with the given key, or appends a new
item when the key is absent.  Also the semantics of UpdateItem with a SET of
all four attributes and no condition expression (upsert), which is what
`handlePut` issues. -/
def putItem (st : Store) (id : String) (p : Person) : Store :=
  match st with
  | [] => [(id, p)]
  | (k, q) :: rest => if k = id then (id, p) :: rest else (k, q) :: putItem rest id p

/-- DynamoDB GetItem on the table model. -/
def getItemStore : Store → String → Option Person
  | [], _ => none
  | (k, q) :: rest, id => if k = id then some q else getItemStore rest id

/-- Response bodies produced by the CRUD handlers.  Constructors stand for the
JSON marshaling the Go code performs (`json.Marshal` of the ResponseBody
struct, of one item, or of the scan result). -/
inductive RespBody where
  | text : String → RespBody
  | personIdJson : String → RespBody
  | itemJson : String → Person → RespBody
  | itemsJson : List (String × Person) → RespBody
deriving DecidableEq, Repr

/-- APIGatewayProxyResponse: status code and body. -/
structure APIResponse where
  statusCode : Nat
  body : RespBody
deriving DecidableEq, Repr

/-- Hex digit characters used by the UUID string form (lowercase). -/
def hexDigit (n : Nat) : Char :=
  if n < 10 then Char.ofNat (48 + n) else Char.ofNat (87 + n)

/-- Two hex digits of one byte. -/
def byteHex (b : Nat) : List Char :=
  [hexDigit (b / 16 % 16), hexDigit (b % 16)]

/-- Byte i of the 16 random bytes drawn by uuid.New, taken from a seed. -/
def uuidByte (seed i : Nat) : Nat := seed / 256 ^ i % 256

/-- uuid.New().String() from google/uuid: 16 random bytes with the version
nibble of byte 6 forced to 4 and the variant bits of byte 8 forced to 10,
rendered as lowercase hex in the 8-4-4-4-12 layout. -/
def uuidFormat (seed : Nat) : String :=
  String.mk (byteHex (uuidByte seed 0) ++ byteHex (uuidByte seed 1) ++
    byteHex (uuidByte seed 2) ++ byteHex (uuidByte seed 3) ++ ['-'] ++
    byteHex (uuidByte seed 4) ++ byteHex (uuidByte seed 5) ++ ['-'] ++
    byteHex (uuidByte seed 6 % 16 + 64) ++ byteHex (uuidByte seed 7) ++ ['-'] ++
    byteHex (uuidByte seed 8 % 64 + 128) ++ byteHex (uuidByte seed 9) ++ ['-'] ++
    byteHex (uuidByte seed 10) ++ byteHex (uuidByte seed 11) ++
    byteHex (uuidByte seed 12) ++ byteHex (uuidByte seed 13) ++
    byteHex (uuidByte seed 14) ++ byteHex (uuidByte seed 15))

/-- handlePost of lambdas/email/main.go: parse the body (`none` models a JSON
unmarshal failure), generate a fresh personId, put the item, return 200 with
the marshaled `{personId}` body.  The random UUID draw is made explicit as
the `seed` argument. -/
def handlePost (seed : Nat) (body : Option Person) (st : Store) : APIResponse × Store :=
  match body with
  | none => (⟨400, RespBody.text ("Invalid input for POST")⟩, st)
  | some person =>
    let personID := uuidFormat seed
    (⟨200, RespBody.personIdJson personID⟩, putItem st personID person)

/-- handlePut of lambdas/email/main.go: 400 on missing path parameter or
unparsable body, otherwise UpdateItem with a SET of all four attributes and
no condition expression, then 200.  UpdateItem without a condition creates
the item when the key is absent. -/
def handlePut (personId : String) (body : Option Person) (st : Store) : APIResponse × Store :=
  if personId = "" then (⟨400, RespBody.text ("Missing personId")⟩, st)
  else
    match body with
    | none => (⟨400, RespBody.text ("Invalid input")⟩, st)
    | some person => (⟨200, RespBody.text ("Item updated successfully")⟩, putItem st personId person)

/-- handleGet of lambdas/email/main.go: with a path parameter, GetItem and
404 when absent; without one, a full Scan. -/
def handleGet (personId : String) (st : Store) : APIResponse :=
  if personId ≠ "" then
    match getItemStore st personId with
    | none => ⟨404, RespBody.text ("Item not found")⟩
    | some p => ⟨200, RespBody.itemJson personId p⟩
  else ⟨200, RespBody.itemsJson st⟩

/-- JSON object body of a POST /persons request: each field present or
absent. -/
structure PostBody where
  firstName : Option String
  lastName : Option String
  address : Option String
  phoneNumber : Option String
deriving DecidableEq, Repr

/-- API Gateway request validation from lib/person-service-repo-stack.ts:
the PostModel schema requires firstName, phoneNumber, lastName and address
to be present (JSON Schema draft4 `required`; presence only, an empty string
satisfies the schema). -/
def validatePostBody (b : PostBody) : Bool :=
  b.firstName.isSome && b.phoneNumber.isSome && b.lastName.isSome && b.address.isSome

/-- Go json.Unmarshal into the Person struct: a missing key leaves the zero
value, the empty string. -/
def goUnmarshalPerson (b : PostBody) : Person :=
  ⟨b.firstName.getD (""), b.lastName.getD (""), b.address.getD (""), b.phoneNumber.getD ("")⟩

/-- POST /persons as deployed: gateway body validation against PostModel
(malformed JSON or a schema violation stops with 400 before the lambda),
then handlePost on the unmarshaled body. -/
def apiCreate (seed : Nat) (body : Option PostBody) (st : Store) : APIResponse × Store :=
  match body with
  | none => (⟨400, RespBody.text ("Invalid request body")⟩, st)
  | some b =>
    if validatePostBody b then handlePost seed (some (goUnmarshalPerson b)) st
    else (⟨400, RespBody.text ("Invalid request body")⟩, st)

/-- The concrete Create payload of the round-trip scenario. -/
def tonyBody : PostBody :=
  ⟨some ("Tony"), some ("Stark"), some ("123 Main St"), some ("1234567890")⟩

/-- The Person record those fields unmarshal to. -/
def tony : Person := ⟨("Tony"), ("Stark"), ("123 Main St"), ("1234567890")⟩

/-- One record of the events.DynamoDBEvent batch handed to the relay handler
in unnamed/part_000: the stream record's EventID, EventName and the NEW_IMAGE
attribute map (attribute name to string value). -/
structure StreamRecord where
  eventID : String
  eventName : String
  newImage : List (String × String)
deriving DecidableEq, Repr

/-- The detail map the relay builds for each record:
eventID, eventName and dynamodbData (the new image). -/
structure Detail where
  eventID : String
  eventName : String
  dynamodbData : List (String × String)
deriving DecidableEq, Repr

/-- The Domain Event the relay publishes for one stream record: the fixed
source tag, the fixed detail type, and the detail map built from the record. -/
structure DomainEvent where
  source : String
  detailType : String
  detail : Detail
deriving DecidableEq, Repr

/-- Build the relay's Domain Event from one stream record (handler loop body
of unnamed/part_000). -/
def mkDomainEvent (r : StreamRecord) : DomainEvent :=
  ⟨("ddb.source"), ("DynamoDBStreamEvent"), ⟨r.eventID, r.eventName, r.newImage⟩⟩

/-- Insert one key-value entry into a key-sorted list (Go's fmt prints map
keys in sorted order). -/
def insertEntry (kv : String × String) : List (String × String) → List (String × String)
  | [] => [kv]
  | x :: xs => if kv.1 < x.1 then kv :: x :: xs else x :: insertEntry kv xs

/-- Sort entries by key, as Go's fmt does before printing a map. -/
def goSortEntries (l : List (String × String)) : List (String × String) :=
  l.foldr insertEntry []

/-- Go fmt %v rendering of a map[string]string-shaped value:
`map[k1:v1 k2:v2]` with keys sorted. -/
def goFmtAttrMap (m : List (String × String)) : String :=
  ("map[") ++ String.intercalate (" ") ((goSortEntries m).map (fun kv => kv.1 ++ (":") ++ kv.2)) ++ ("]")

/-- Go fmt %v rendering of the relay's detail map, as produced by
`fmt.Sprintf` with the %v verb in PutEvent.  The three fixed keys print in
sorted order: dynamodbData, eventID, eventName. -/
def goFmtDetail (d : Detail) : String :=
  ("map[dynamodbData:") ++ goFmtAttrMap d.dynamodbData ++ (" eventID:") ++ d.eventID ++
    (" eventName:") ++ d.eventName ++ ("]")

/-- The PutEventsRequestEntry the relay sends to EventBridge (PutEvent in
unnamed/part_000): source, detail type, the detail rendered with fmt %v, and
the fixed bus name. -/
structure PutEventsEntry where
  source : String
  detailType : String
  detail : String
  eventBusName : String
deriving DecidableEq, Repr

/-- Wire entry built by PutEvent for a Domain Event. -/
def putEventsEntryOf (e : DomainEvent) : PutEventsEntry :=
  ⟨e.source, e.detailType, goFmtDetail e.detail, ("DDBStreamCustomEventBus")⟩

/-- JSON string literal (no character of the inputs considered needs
escaping). -/
def jsonStr (s : String) : String := ("\"") ++ s ++ ("\"")

/-- Modelled from the spec: JSON encoding of a string-to-string map, part of
the `detail: JSON-encoded Change Entry` payload that section 6 of the spec
requires of the publish call. -/
def jsonAttrMap (m : List (String × String)) : String :=
  ("\x7b") ++ String.intercalate (",") (m.map (fun kv => jsonStr kv.1 ++ (":") ++ jsonStr kv.2)) ++ ("\x7d")

/-- Modelled from the spec: the `detail: JSON-encoded Change Entry` payload
of the Relay-to-Router publish call described in section 6 of the spec, as a
JSON object over the detail's three fields. -/
def jsonDetail (d : Detail) : String :=
  ("\x7b") ++ jsonStr ("eventID") ++ (":") ++ jsonStr d.eventID ++ (",") ++
    jsonStr ("eventName") ++ (":") ++ jsonStr d.eventName ++ (",") ++
    jsonStr ("dynamodbData") ++ (":") ++ jsonAttrMap d.dynamodbData ++ ("\x7d")

/-- The relay handler of unnamed/part_000 over a batch, with the outcome of
each remote PutEvents call given by the oracle `pub`: for each record in
order, build the Domain Event and publish it; on the first failed publish
stop and return the error (whole-batch failure, no partial-batch
bookkeeping).  Returns the list of successfully published events and whether
the handler returned nil. -/
def relayRun (pub : DomainEvent → Bool) : List StreamRecord → List DomainEvent × Bool
  | [] => ([], true)
  | r :: rs =>
    if pub (mkDomainEvent r) then
      (mkDomainEvent r :: (relayRun pub rs).1, (relayRun pub rs).2)
    else ([], false)

/-- A concrete stream record used as a test input. -/
def sampleRecord : StreamRecord := ⟨("e1"), ("INSERT"), []⟩

/-- Consumer targets registered on the event bus in
lib/person-service-repo-stack.ts: the CloudWatch log group of the inspection
rule (the audit/logging sink) and the email service lambda. -/
inductive ConsumerTarget where
  | cloudWatchLogs : ConsumerTarget
  | emailLambda : ConsumerTarget
deriving DecidableEq, Repr

/-- An EventBridge event pattern: lists of accepted sources and detail
types, and an optional resources constraint. -/
structure EventPattern where
  source : List String
  detailType : List String
  resources : Option (List String)
deriving DecidableEq, Repr

/-- An event as seen by the router: source, detail type and the resources
carried by the PutEvents entry. -/
structure BusEvent where
  source : String
  detailType : String
  resources : List String
deriving DecidableEq, Repr

/-- EventBridge pattern matching: every field present in the pattern must
match; a resources pattern matches when some event resource equals some
listed value. -/
def patternMatches (p : EventPattern) (e : BusEvent) : Bool :=
  p.source.contains e.source && p.detailType.contains e.detailType &&
    (match p.resources with
     | none => true
     | some rs => rs.any (fun r => e.resources.contains r))

/-- Pattern of InspectDDBStreamEventsRule in lib/person-service-repo-stack.ts:
source ddb.source, detailType DynamoDBStreamEvent, no resources constraint;
its target is the CloudWatch log group. -/
def inspectRulePattern : EventPattern :=
  ⟨[("ddb.source")], [("DynamoDBStreamEvent")], none⟩

/-- Pattern of EventBridgeRule in lib/person-service-repo-stack.ts: source
ddb.source, detailType DynamoDBStreamEvent, and resources constrained to the
table stream ARN; its target is the email service lambda. -/
def emailRulePattern (tableStreamArn : String) : EventPattern :=
  ⟨[("ddb.source")], [("DynamoDBStreamEvent")], some [tableStreamArn]⟩

/-- The rules registered on the custom bus in
lib/person-service-repo-stack.ts, with their targets. -/
def stackRules (tableStreamArn : String) : List (EventPattern × ConsumerTarget) :=
  [(inspectRulePattern, ConsumerTarget.cloudWatchLogs),
   (emailRulePattern tableStreamArn, ConsumerTarget.emailLambda)]

/-- Router fan-out: deliver the event to the target of every rule whose
pattern matches it. -/
def routerDeliver (rules : List (EventPattern × ConsumerTarget)) (e : BusEvent) : List ConsumerTarget :=
  rules.filterMap (fun pt => if patternMatches pt.1 e then some pt.2 else none)

/-- The bus event resulting from the relay's PutEvents call: PutEvent sets
Source and DetailType but no Resources field, so the event carries none. -/
def publishedBusEvent (e : DomainEvent) : BusEvent :=
  ⟨e.source, e.detailType, []⟩

/-- A CloudWatch event as received by the consumer lambdas (the detail
payload is all the handlers look at). -/
structure CloudWatchEvent where
  detail : String
deriving DecidableEq, Repr

/-- handler of lambdas/email/main.go (the CloudWatchEvent variant): print
the event detail, print the notification stub line, return nil.  Result is
the log lines and the returned error (none = nil). -/
def emailConsumerHandler (event : CloudWatchEvent) : List String × Option String :=
  ([("Received event: ") ++ event.detail, ("Sending email notification...")], none)

/-- handler of lambdas/logging/main.go: print the event detail, print the
logging stub line, return nil. -/
def loggingConsumerHandler (event : CloudWatchEvent) : List String × Option String :=
  ([("Received event: ") ++ event.detail, ("Logging DynamoDB stream event...")], none)

/-- A POST body whose firstName is present but empty. -/
def emptyFirstBody : PostBody :=
  ⟨some (""), some ("Stark"), some ("123 Main St"), some ("1234567890")⟩

/-- A POST body with firstName missing. -/
def missingFirstBody : PostBody :=
  ⟨none, some ("Stark"), some ("123 Main St"), some ("1234567890")⟩

/-- Concrete update payloads for the last-writer-wins test. -/
def updateA : Person := ⟨("Ann"), ("Ames"), ("1 First Ave"), ("1111111111")⟩

/-- Second concrete update payload. -/
def updateB : Person := ⟨("Bob"), ("Burns"), ("2 Second Ave"), ("2222222222")⟩

/-- Lookup after a put of the same key returns the value just written. -/
theorem getItemStore_putItem (st : Store) (id : String) (p : Person) :
    getItemStore (putItem st id p) id = some p := by
  induction st with
  | nil => simp [putItem, getItemStore]
  | cons kv rest ih =>
    obtain ⟨k, q⟩ := kv
    by_cases h : k = id
    · simp [putItem, getItemStore, h]
    · simp [putItem, getItemStore, h, ih]

/-- Every UUID string has the fixed 36-character 8-4-4-4-12 layout. -/
theorem uuidFormat_length (seed : Nat) : (uuidFormat seed).length = 36 := by
  simp [uuidFormat, byteHex, String.length]

/-- A generated personId is never the empty string. -/
theorem uuidFormat_ne_empty (seed : Nat) : uuidFormat seed ≠ ("") := by
  intro h
  have hl := uuidFormat_length seed
  rw [h] at hl
  simp [String.length] at hl

/-- When every publish succeeds, the relay publishes exactly the batch's
events in batch order and returns nil. -/
theorem relayRun_all_ok (pub : DomainEvent → Bool) (batch : List StreamRecord)
    (h : ∀ r ∈ batch, pub (mkDomainEvent r) = true) :
    relayRun pub batch = (batch.map mkDomainEvent, true) := by
  induction batch with
  | nil => rfl
  | cons r rs ih =>
    have hr := h r (List.mem_cons_self r rs)
    have hrs : ∀ x ∈ rs, pub (mkDomainEvent x) = true :=
      fun x hx => h x (List.mem_cons_of_mem r hx)
    simp [relayRun, hr, ih hrs]

/-- When some record's publish fails, the relay invocation returns an
error. -/
theorem relayRun_fail (pub : DomainEvent → Bool) (batch : List StreamRecord)
    (h : ∃ r ∈ batch, pub (mkDomainEvent r) = false) :
    (relayRun pub batch).2 = false := by
  induction batch with
  | nil => simp at h
  | cons r rs ih =>
    by_cases hr : pub (mkDomainEvent r) = true
    · obtain ⟨x, hx, hpx⟩ := h
      rcases List.mem_cons.mp hx with hhead | htail
      · rw [hhead] at hpx
        rw [hr] at hpx
        cases hpx
      · simp only [relayRun, hr, if_true]
        exact ih ⟨x, htail, hpx⟩
    · have hfalse : pub (mkDomainEvent r) = false := by
        cases hpub : pub (mkDomainEvent r) with
        | true => exact absurd hpub hr
        | false => rfl
      simp [relayRun, hfalse]

/-- C1: the claim says a PUT for a nonexistent id signals NotFound (404) and
creates nothing.  On the empty store, handlePut for id p1 instead returns
200, never 404, and the record now exists: UpdateItem without a condition
expression is an upsert. -/
theorem C1_put_counterexample :
    (handlePut ("p1") (some tony) []).1.statusCode = 200 ∧
    ¬ (handlePut ("p1") (some tony) []).1.statusCode = 404 ∧
    getItemStore (handlePut ("p1") (some tony) []).2 ("p1") = some tony := by
  decide

/-- C1 (amended): for every nonempty id absent from the store and every
well-formed body, handlePut returns 200 and creates the record with the
given fields (upsert); NotFound is never signaled. -/
theorem C1_put_upserts (id : String) (p : Person) (st : Store)
    (hid : id ≠ ("")) (_habs : getItemStore st id = none) :
    (handlePut id (some p) st).1.statusCode = 200 ∧
    getItemStore (handlePut id (some p) st).2 id = some p := by
  simp [handlePut, hid, getItemStore_putItem]

/-- C1 witness: the amended theorem applied at a concrete input. -/
theorem C1_put_upserts_witness :
    (handlePut ("q1") (some tony) []).1.statusCode = 200 ∧
    getItemStore (handlePut ("q1") (some tony) []).2 ("q1") = some tony :=
  C1_put_upserts ("q1") tony [] (by decide) (by decide)

/-- C2: the claim says the relay's events are delivered to both the email
and the logging consumers.  For the concrete relay event built from
sampleRecord, the email lambda is not among the delivered targets: its rule
additionally constrains resources to the table stream ARN and relay events
carry no resources. -/
theorem C2_email_not_delivered :
    ConsumerTarget.emailLambda ∉
      routerDeliver (stackRules ("arn:aws:dynamodb:us-east-1:1:table/T/stream/S"))
        (publishedBusEvent (mkDomainEvent sampleRecord)) := by
  decide

/-- C2 (amended): every event the relay publishes (source ddb.source, type
DynamoDBStreamEvent, no resources) is delivered exactly to the consumers
whose pattern matches it: the CloudWatch Logs inspection rule, whose pattern
is exactly the source and type.  The email rule's pattern also requires a
resources match, which never holds, so the email lambda receives nothing. -/
theorem C2_router_delivery (arn : String) (e : BusEvent)
    (hs : e.source = ("ddb.source")) (ht : e.detailType = ("DynamoDBStreamEvent"))
    (hr : e.resources = []) :
    routerDeliver (stackRules arn) e = [ConsumerTarget.cloudWatchLogs] ∧
    patternMatches inspectRulePattern e = true ∧
    patternMatches (emailRulePattern arn) e = false := by
  obtain ⟨s, t, rs⟩ := e
  simp only at hs ht hr
  subst hs
  subst ht
  subst hr
  simp [routerDeliver, stackRules, patternMatches, inspectRulePattern, emailRulePattern,
    List.contains]

/-- C2 witness: the amended theorem applied to the concrete relay event. -/
theorem C2_router_delivery_witness :
    routerDeliver (stackRules ("arn:aws:dynamodb:us-east-1:1:table/T/stream/S"))
        (publishedBusEvent (mkDomainEvent sampleRecord)) = [ConsumerTarget.cloudWatchLogs] ∧
    patternMatches inspectRulePattern (publishedBusEvent (mkDomainEvent sampleRecord)) = true ∧
    patternMatches (emailRulePattern ("arn:aws:dynamodb:us-east-1:1:table/T/stream/S"))
        (publishedBusEvent (mkDomainEvent sampleRecord)) = false :=
  C2_router_delivery ("arn:aws:dynamodb:us-east-1:1:table/T/stream/S")
    (publishedBusEvent (mkDomainEvent sampleRecord)) rfl rfl rfl

/-- C3: the claim says a Create with a required field missing or empty
returns 400 and writes nothing.  A body whose firstName is present but
empty passes the gateway's presence-only schema validation, and handlePost
performs no field validation of its own: the call returns 200 and the store
gains a record. -/
theorem C3_empty_field_counterexample :
    (apiCreate 0 (some emptyFirstBody) []).1.statusCode = 200 ∧
    (apiCreate 0 (some emptyFirstBody) []).2 ≠ [] := by
  constructor
  · rfl
  · simp [apiCreate, emptyFirstBody, validatePostBody, handlePost, goUnmarshalPerson, putItem]

/-- C3 (amended): a Create whose body fails the gateway schema validation
(some required field missing) is rejected with 400 and the store is
untouched; a body with all four fields present — even when a value is the
empty string — reaches handlePost, which returns 200 and writes the record
unconditionally. -/
theorem C3_gateway_validation (seed : Nat) (b : PostBody) (st : Store) :
    (validatePostBody b = false →
      apiCreate seed (some b) st = (⟨400, RespBody.text ("Invalid request body")⟩, st)) ∧
    (validatePostBody b = true →
      (apiCreate seed (some b) st).1.statusCode = 200 ∧
      (apiCreate seed (some b) st).2 = putItem st (uuidFormat seed) (goUnmarshalPerson b)) := by
  constructor
  · intro h
    simp [apiCreate, h]
  · intro h
    simp [apiCreate, h, handlePost]

/-- C3 witness: the amended theorem applied at concrete inputs for both the
rejected and the accepted side. -/
theorem C3_gateway_validation_witness :
    apiCreate 0 (some missingFirstBody) [] = (⟨400, RespBody.text ("Invalid request body")⟩, []) ∧
    (apiCreate 0 (some emptyFirstBody) []).1.statusCode = 200 :=
  ⟨(C3_gateway_validation 0 missingFirstBody []).1 (by decide),
   ((C3_gateway_validation 0 emptyFirstBody []).2 (by decide)).1⟩

/-- C4: the claim (and the spec's publish contract) says the detail field of
the publish payload is the JSON encoding of the Change Entry payload.  The
source and detailType are the fixed strings, but PutEvent renders the detail
with Go's fmt %v verb, so the published detail is the Go map rendering, not
JSON: at the sample record it is the string
map[dynamodbData:map[] eventID:e1 eventName:INSERT], which differs from the
JSON encoding. -/
theorem C4_detail_not_json :
    (putEventsEntryOf (mkDomainEvent sampleRecord)).source = ("ddb.source") ∧
    (putEventsEntryOf (mkDomainEvent sampleRecord)).detailType = ("DynamoDBStreamEvent") ∧
    (putEventsEntryOf (mkDomainEvent sampleRecord)).detail =
      ("map[dynamodbData:map[] eventID:e1 eventName:INSERT]") ∧
    (putEventsEntryOf (mkDomainEvent sampleRecord)).detail ≠
      jsonDetail (mkDomainEvent sampleRecord).detail := by
  refine ⟨rfl, rfl, ?_, ?_⟩
  · decide
  · decide

/-- C5: for every batch and any two relay invocations over it in which every
publish succeeds (the simulated retry), the two runs publish events with
identical eventId lists, and that list is exactly the EventIDs of the batch's
entries: the eventId is deterministically copied from the entry, so a retry
reproduces it. -/
theorem C5_idempotent_eventIds (pubA pubB : DomainEvent → Bool) (batch : List StreamRecord)
    (hA : ∀ r ∈ batch, pubA (mkDomainEvent r) = true)
    (hB : ∀ r ∈ batch, pubB (mkDomainEvent r) = true) :
    (relayRun pubA batch).1.map (fun e => e.detail.eventID) =
      (relayRun pubB batch).1.map (fun e => e.detail.eventID) ∧
    (relayRun pubA batch).1.map (fun e => e.detail.eventID) =
      batch.map StreamRecord.eventID := by
  rw [relayRun_all_ok pubA batch hA, relayRun_all_ok pubB batch hB]
  constructor
  · rfl
  · simp [mkDomainEvent]

/-- C5 witness: two concrete runs over the same one-record batch agree on
the eventIds. -/
theorem C5_idempotent_eventIds_witness :
    (relayRun (fun _ => true) [sampleRecord]).1.map (fun e => e.detail.eventID) =
      (relayRun (fun e => e.source == ("ddb.source")) [sampleRecord]).1.map
        (fun e => e.detail.eventID) ∧
    (relayRun (fun _ => true) [sampleRecord]).1.map (fun e => e.detail.eventID) =
      [sampleRecord].map StreamRecord.eventID :=
  C5_idempotent_eventIds (fun _ => true) (fun e => e.source == ("ddb.source")) [sampleRecord]
    (by intro r hr; rfl) (by intro r hr; simp at hr; subst hr; decide)

/-- C6: when every publish succeeds, the relay publishes exactly one Domain
Event per Change Entry of the batch, in batch order, and returns nil. -/
theorem C6_one_event_per_entry (pub : DomainEvent → Bool) (batch : List StreamRecord)
    (h : ∀ r ∈ batch, pub (mkDomainEvent r) = true) :
    relayRun pub batch = (batch.map mkDomainEvent, true) :=
  relayRun_all_ok pub batch h

/-- C6 witness: a concrete all-successful run over a one-record batch. -/
theorem C6_one_event_per_entry_witness :
    relayRun (fun _ => true) [sampleRecord] = ([mkDomainEvent sampleRecord], true) :=
  C6_one_event_per_entry (fun _ => true) [sampleRecord] (by intro r hr; rfl)

/-- C7: if publishing any entry of the batch fails, the relay invocation as
a whole returns an error (no partial-batch acknowledgment), and if every
publish succeeds it returns nil. -/
theorem C7_whole_batch_result (pub : DomainEvent → Bool) (batch : List StreamRecord) :
    ((∃ r ∈ batch, pub (mkDomainEvent r) = false) → (relayRun pub batch).2 = false) ∧
    ((∀ r ∈ batch, pub (mkDomainEvent r) = true) → (relayRun pub batch).2 = true) :=
  ⟨relayRun_fail pub batch, fun h => by rw [relayRun_all_ok pub batch h]⟩

/-- C7 witness: a concrete failing run and a concrete successful run over a
one-record batch. -/
theorem C7_whole_batch_result_witness :
    (relayRun (fun _ => false) [sampleRecord]).2 = false ∧
    (relayRun (fun _ => true) [sampleRecord]).2 = true :=
  ⟨(C7_whole_batch_result (fun _ => false) [sampleRecord]).1 ⟨sampleRecord, by simp, rfl⟩,
   (C7_whole_batch_result (fun _ => true) [sampleRecord]).2 (by intro r hr; rfl)⟩

/-- C8: for every existing record id and every nonempty sequence of updates
applied to it through handlePut, a Get after the sequence returns the field
set of the last applied update (last-writer-wins, full replace). -/
theorem C8_last_writer_wins (id : String) (st : Store) (ps : List Person)
    (hne : ps ≠ []) (hid : id ≠ ("")) (hex : (getItemStore st id).isSome = true) :
    getItemStore (ps.foldl (fun s p => (handlePut id (some p) s).2) st) id =
      some (ps.getLast hne) := by
  induction ps generalizing st with
  | nil => exact absurd rfl hne
  | cons p qs ih =>
    have hstep : (handlePut id (some p) st).2 = putItem st id p := by
      simp [handlePut, hid]
    cases qs with
    | nil =>
      simp [List.foldl, hstep, getItemStore_putItem]
    | cons q rs =>
      rw [List.foldl_cons, hstep]
      have hex2 : (getItemStore (putItem st id p) id).isSome = true := by
        rw [getItemStore_putItem]
        rfl
      rw [ih (putItem st id p) (by simp) hex2]
      exact congrArg some (List.getLast_cons (by simp)).symm

/-- C8 witness: two concrete updates to an existing record; the read
returns the second update's fields. -/
theorem C8_last_writer_wins_witness :
    getItemStore
      ([updateA, updateB].foldl (fun s p => (handlePut ("p1") (some p) s).2)
        (putItem [] ("p1") tony)) ("p1") = some updateB := by
  have h := C8_last_writer_wins ("p1") (putItem [] ("p1") tony) [updateA, updateB]
    (by decide) (by decide) (by decide)
  simpa using h

/-- C9: the concrete Create payload of the scenario passes validation, POST
returns 200 with the generated, provably nonempty personId, and the
subsequent GET on that personId returns 200 with exactly the four submitted
field values. -/
theorem C9_create_get_roundtrip (seed : Nat) (st : Store) :
    (apiCreate seed (some tonyBody) st).1.statusCode = 200 ∧
    (apiCreate seed (some tonyBody) st).1.body = RespBody.personIdJson (uuidFormat seed) ∧
    uuidFormat seed ≠ ("") ∧
    handleGet (uuidFormat seed) (apiCreate seed (some tonyBody) st).2 =
      ⟨200, RespBody.itemJson (uuidFormat seed) tony⟩ := by
  have hne := uuidFormat_ne_empty seed
  refine ⟨?_, ?_, hne, ?_⟩
  · rfl
  · rfl
  · have hstore : (apiCreate seed (some tonyBody) st).2 = putItem st (uuidFormat seed) tony := rfl
    rw [hstore]
    simp [handleGet, hne, getItemStore_putItem]

/-- C10: each implemented consumer handler (email notifier and logging
sink) returns nil for every incoming event, so neither ever signals a
retryable failure to the router's delivery mechanism. -/
theorem C10_consumers_return_success (e : CloudWatchEvent) :
    (emailConsumerHandler e).2 = none ∧ (loggingConsumerHandler e).2 = none :=
  ⟨rfl, rfl⟩
